import Mathlib

/-!
Shallow embedding of the FASAL crop-recommendation code
(`src/data/mockData.ts`, `src/integrations/cropRecommendation/service.ts`,
`supabase/functions/ai-crop-recommendations/index.ts`).

Modelling conventions:
* JavaScript numbers are modelled as exact rationals (`ℚ`); numeric literals
  such as `2.47` or `0.15` denote the exact rational the source text writes.
* The wall clock (`new Date().getMonth()`) and `Math.random()` are effects; they
  are modelled as explicit parameters (a month number, a per-index jitter
  function), as is the outcome of the asynchronous ML-model call.
* IEEE-754 special values matter only where the source divides by zero; those
  code paths are additionally modelled by the `JSNum` type, which tracks
  NaN and the signed infinities exactly.
-/

namespace Fasal

/-- JS `Math.min(Math.max(x, lo), hi)` clamping combinator. -/
def clamp (x lo hi : ℚ) : ℚ := min (max x lo) hi

/-- JS `Math.round`: round to the nearest integer, ties toward positive infinity. -/
def jsRound (q : ℚ) : ℚ := ((⌊q + 1/2⌋ : ℤ) : ℚ)

/-- JS `x.toFixed(1)` followed by `parseFloat`: round to the nearest tenth,
ties toward the larger value. -/
def roundTenth (q : ℚ) : ℚ := ((⌊q * 10 + 1/2⌋ : ℤ) : ℚ) / 10

/-- JS `String.prototype.includes`: substring containment (an empty needle is
always contained). -/
def jsIncludes (s sub : String) : Bool :=
  s.toList.tails.any fun suff => sub.toList.isPrefixOf suff

/-- JS `String.prototype.toLowerCase` restricted to the ASCII names the code
compares (per-character lower-casing). -/
def jsToLower (s : String) : String := String.mk (s.data.map Char.toLower)

/-- The three growing seasons of `mockData.ts`. -/
inductive Season
  | kharif
  | rabi
  | zaid
deriving DecidableEq

/-- The `Crop` interface of `mockData.ts`. -/
structure Crop where
  id : ℕ
  name_en : String
  name_hi : String
  season : Season
  soil_ph_min : ℚ
  soil_ph_max : ℚ
  temperature_min : ℚ
  temperature_max : ℚ
  rainfall_min : ℚ
  rainfall_max : ℚ
  investment_per_acre : ℚ
  expected_yield_per_acre : ℚ
  roi_percentage : ℚ
  current_price_per_kg : ℚ
  growing_states : List String
  image : String
  description_en : String
  description_hi : String
deriving DecidableEq

/-- First `mockCrops` record of `mockData.ts` (the free-text descriptions are
elided to short markers; they never influence any computation). -/
def wheat : Crop :=
  { id := 1, name_en := "Wheat", name_hi := "गेहूं", season := Season.rabi,
    soil_ph_min := 6.0, soil_ph_max := 7.5,
    temperature_min := 15, temperature_max := 25,
    rainfall_min := 300, rainfall_max := 800,
    investment_per_acre := 25000, expected_yield_per_acre := 20,
    roi_percentage := 35, current_price_per_kg := 21,
    growing_states := ["Punjab", "Haryana", "UP", "MP", "Rajasthan"],
    image := "🌾", description_en := "wheat-en", description_hi := "wheat-hi" }

/-- Second `mockCrops` record. -/
def rice : Crop :=
  { id := 2, name_en := "Rice", name_hi := "चावल", season := Season.kharif,
    soil_ph_min := 5.5, soil_ph_max := 7.0,
    temperature_min := 20, temperature_max := 35,
    rainfall_min := 1000, rainfall_max := 2000,
    investment_per_acre := 30000, expected_yield_per_acre := 25,
    roi_percentage := 40, current_price_per_kg := 20,
    growing_states := ["West Bengal", "Punjab", "Haryana", "AP", "Tamil Nadu"],
    image := "🌾", description_en := "rice-en", description_hi := "rice-hi" }

/-- Third `mockCrops` record. -/
def sugarcane : Crop :=
  { id := 3, name_en := "Sugarcane", name_hi := "गन्ना", season := Season.kharif,
    soil_ph_min := 6.0, soil_ph_max := 8.0,
    temperature_min := 20, temperature_max := 40,
    rainfall_min := 800, rainfall_max := 1200,
    investment_per_acre := 50000, expected_yield_per_acre := 400,
    roi_percentage := 45, current_price_per_kg := 3.5,
    growing_states := ["UP", "Maharashtra", "Karnataka", "Tamil Nadu", "Punjab"],
    image := "🎋", description_en := "sugarcane-en", description_hi := "sugarcane-hi" }

/-- Fourth `mockCrops` record. -/
def cotton : Crop :=
  { id := 4, name_en := "Cotton", name_hi := "कपास", season := Season.kharif,
    soil_ph_min := 6.0, soil_ph_max := 8.0,
    temperature_min := 20, temperature_max := 35,
    rainfall_min := 600, rainfall_max := 1000,
    investment_per_acre := 40000, expected_yield_per_acre := 15,
    roi_percentage := 50, current_price_per_kg := 60,
    growing_states := ["Gujarat", "Maharashtra", "Telangana", "AP", "Punjab"],
    image := "🌱", description_en := "cotton-en", description_hi := "cotton-hi" }

/-- Fifth `mockCrops` record. -/
def soybean : Crop :=
  { id := 5, name_en := "Soybean", name_hi := "सोयाबीन", season := Season.kharif,
    soil_ph_min := 6.0, soil_ph_max := 7.5,
    temperature_min := 20, temperature_max := 30,
    rainfall_min := 600, rainfall_max := 1000,
    investment_per_acre := 20000, expected_yield_per_acre := 12,
    roi_percentage := 30, current_price_per_kg := 40,
    growing_states := ["MP", "Maharashtra", "Rajasthan", "Karnataka"],
    image := "🫘", description_en := "soybean-en", description_hi := "soybean-hi" }

/-- The `mockCrops` list of `mockData.ts`. -/
def mockCrops : List Crop := [wheat, rice, sugarcane, cotton, soybean]

/-- Result record of `getLocationFromPincode` in `mockData.ts`. -/
structure Location where
  district : String
  state : String
  lat : ℚ
  lon : ℚ
deriving DecidableEq

/-- The `getLocationFromPincode` lookup table of `mockData.ts`. -/
def getLocationFromPincode (pincode : String) : Location :=
  if pincode = "110001" then ⟨"New Delhi", "Delhi", 28.6139, 77.2090⟩
  else if pincode = "400001" then ⟨"Mumbai", "Maharashtra", 19.0760, 72.8777⟩
  else if pincode = "500001" then ⟨"Hyderabad", "Telangana", 17.3850, 78.4867⟩
  else if pincode = "700001" then ⟨"Kolkata", "West Bengal", 22.5726, 88.3639⟩
  else if pincode = "600001" then ⟨"Chennai", "Tamil Nadu", 13.0827, 80.2707⟩
  else if pincode = "560001" then ⟨"Bangalore", "Karnataka", 12.9716, 77.5946⟩
  else if pincode = "141001" then ⟨"Ludhiana", "Punjab", 30.9010, 75.8573⟩
  else if pincode = "302001" then ⟨"Jaipur", "Rajasthan", 26.9124, 75.7873⟩
  else if pincode = "380001" then ⟨"Ahmedabad", "Gujarat", 23.0225, 72.5714⟩
  else if pincode = "411001" then ⟨"Pune", "Maharashtra", 18.5204, 73.8567⟩
  else ⟨"Unknown", "Unknown", 0, 0⟩

/-- Area units accepted by the rankers. -/
inductive AreaUnit
  | acres
  | hectares
deriving DecidableEq

/-- Hectare-to-acre conversion at the head of `calculateRecommendations`. -/
def areaInAcres (farmArea : ℚ) (u : AreaUnit) : ℚ :=
  if u = AreaUnit.hectares then farmArea * 2.47 else farmArea

/-- A crop together with the four financial fields attached by
`calculateRecommendations`. -/
structure Recommendation where
  crop : Crop
  totalInvestment : ℚ
  expectedReturn : ℚ
  profitAmount : ℚ
  actualROI : ℚ
deriving DecidableEq

/-- The `hasGoodLocation` test inside the first filter of
`calculateRecommendations`. -/
def hasGoodLocation (loc : Location) (crop : Crop) : Bool :=
  crop.growing_states.any fun st =>
    jsIncludes (jsToLower st) (jsToLower loc.state) ||
      jsIncludes (jsToLower loc.state) (jsToLower st)

/-- The season/location filter of `calculateRecommendations`. -/
def eligibleCrops (pincode : String) (currentSeason : Season) : List Crop :=
  mockCrops.filter fun crop =>
    crop.season == currentSeason || hasGoodLocation (getLocationFromPincode pincode) crop

/-- The crop-rotation filter of `calculateRecommendations`: drop crops whose
lower-cased English name is a member of `previousCrops`. -/
def rotationFiltered (pincode : String) (previousCrops : List String)
    (currentSeason : Season) : List Crop :=
  (eligibleCrops pincode currentSeason).filter fun crop =>
    !(previousCrops.contains (jsToLower crop.name_en))

/-- The financial-field map step of `calculateRecommendations`. -/
def financials (areaAcres : ℚ) (crop : Crop) : Recommendation :=
  { crop := crop
    totalInvestment := crop.investment_per_acre * areaAcres
    expectedReturn := crop.expected_yield_per_acre * areaAcres * crop.current_price_per_kg
    profitAmount := crop.expected_yield_per_acre * areaAcres * crop.current_price_per_kg -
      crop.investment_per_acre * areaAcres
    actualROI := (crop.expected_yield_per_acre * areaAcres * crop.current_price_per_kg -
      crop.investment_per_acre * areaAcres) / (crop.investment_per_acre * areaAcres) * 100 }

/-- Descending order on a rational sort key: the relation under which a stable
sort reproduces a JS `.sort((a, b) => key(b) - key(a))`. -/
def keyGE {α : Type} (key : α → ℚ) (a b : α) : Prop := key b ≤ key a

instance {α : Type} (key : α → ℚ) : DecidableRel (keyGE key) :=
  fun a b => inferInstanceAs (Decidable (_ ≤ _))

instance {α : Type} (key : α → ℚ) : IsTotal α (keyGE key) :=
  ⟨fun a b => le_total (key b) (key a)⟩

instance {α : Type} (key : α → ℚ) : IsTrans α (keyGE key) :=
  ⟨fun _ _ _ h1 h2 => le_trans h2 h1⟩

/-- Ordering used by `.sort((a, b) => b.actualROI - a.actualROI)`. -/
@[reducible]
def roiGE : Recommendation → Recommendation → Prop := keyGE (·.actualROI)

/-- The unsorted financial records of `calculateRecommendations`. -/
def mappedRecommendations (pincode : String) (farmArea : ℚ) (previousCrops : List String)
    (u : AreaUnit) (currentSeason : Season) : List Recommendation :=
  (rotationFiltered pincode previousCrops currentSeason).map
    (financials (areaInAcres farmArea u))

/-- The sorted, untruncated recommendation list of `calculateRecommendations`. -/
def sortedRecommendations (pincode : String) (farmArea : ℚ) (previousCrops : List String)
    (u : AreaUnit) (currentSeason : Season) : List Recommendation :=
  (mappedRecommendations pincode farmArea previousCrops u currentSeason).insertionSort roiGE

/-- The `calculateRecommendations` ranker of `mockData.ts`; the wall-clock
season read (`getCurrentSeason()`) is passed in explicitly. -/
def calculateRecommendations (pincode : String) (farmArea : ℚ) (previousCrops : List String)
    (u : AreaUnit) (currentSeason : Season) : List Recommendation :=
  (sortedRecommendations pincode farmArea previousCrops u currentSeason).take 5

/-- The `getCurrentSeason` month mapping of `mockData.ts` (`month` is the
1-based calendar month). -/
def getCurrentSeason (month : ℕ) : Season :=
  if 4 ≤ month ∧ month ≤ 9 then Season.kharif
  else if 10 ≤ month ∨ month ≤ 3 then Season.rabi
  else Season.zaid

/-- The `CropRecommendationParams` interface of `service.ts`; every field is
optional in the source. -/
structure RecParams where
  nitrogen : Option ℚ
  phosphorus : Option ℚ
  potassium : Option ℚ
  temperature : Option ℚ
  humidity : Option ℚ
  ph : Option ℚ
  rainfall : Option ℚ
  season : Option String
  state : Option String
deriving DecidableEq

/-- The `normalizeParameters` function of `service.ts`: each supplied numeric
field is clamped into `[0, 1]` (the comment in the source says the form already
normalized them); absent fields stay absent, `season`/`state` pass through. -/
def normalizeParameters (params : RecParams) : RecParams :=
  { params with
    nitrogen := params.nitrogen.map (fun v => clamp v 0 1)
    phosphorus := params.phosphorus.map (fun v => clamp v 0 1)
    potassium := params.potassium.map (fun v => clamp v 0 1)
    temperature := params.temperature.map (fun v => clamp v 0 1)
    humidity := params.humidity.map (fun v => clamp v 0 1)
    ph := params.ph.map (fun v => clamp v 0 1)
    rainfall := params.rainfall.map (fun v => clamp v 0 1) }

/-- The `getSeasonalityFactor` lookup of `service.ts`: a missing (or empty,
hence falsy) season yields the neutral factor 1.0; otherwise the per-season
crop table applies with default 0.9, and an unknown season falls back to the
default table whose only entry is 1.0. -/
def getSeasonalityFactor (season : Option String) (cropName : String) : ℚ :=
  match season with
  | none => 1.0
  | some s =>
    if s = "" then 1.0
    else
      let sl := jsToLower s
      let cl := jsToLower cropName
      if sl = "winter" then
        if cl = "wheat" then 1.3
        else if cl = "potato" then 1.2
        else if cl = "mustard" then 1.2
        else if cl = "peas" then 1.2
        else 0.9
      else if sl = "summer" then
        if cl = "rice" then 1.2
        else if cl = "maize" then 1.2
        else if cl = "cotton" then 1.3
        else if cl = "sugarcane" then 1.2
        else 0.9
      else if sl = "monsoon" then
        if cl = "rice" then 1.3
        else if cl = "maize" then 1.2
        else if cl = "soybean" then 1.2
        else if cl = "cotton" then 1.1
        else 0.9
      else 1.0

/-- The `getSeasonalSuitabilityLabel` thresholds of `service.ts`. -/
def getSeasonalSuitabilityLabel (factor : ℚ) : String :=
  if 1.2 ≤ factor then "excellent"
  else if 1.1 ≤ factor then "good"
  else if 0.9 ≤ factor then "moderate"
  else if 0.8 ≤ factor then "poor"
  else "unsuitable"

/-- The per-parameter weight vector of `calculateCropSuitabilityScore`. -/
structure Weights where
  nitrogen : ℚ
  phosphorus : ℚ
  potassium : ℚ
  temperature : ℚ
  rainfall : ℚ
  ph : ℚ
deriving DecidableEq

/-- The initial (default) weight table of `calculateCropSuitabilityScore`. -/
def defaultWeights : Weights :=
  { nitrogen := 0.15, phosphorus := 0.15, potassium := 0.15,
    temperature := 0.2, rainfall := 0.2, ph := 0.15 }

/-- Weights for cereals (`rice`, `wheat`, `maize`). -/
def cerealWeights : Weights :=
  { nitrogen := 0.2, phosphorus := 0.15, potassium := 0.15,
    temperature := 0.2, rainfall := 0.2, ph := 0.1 }

/-- Weights for pulses (`lentil`, `chickpea`, `pigeonpeas`, `blackgram`,
`mungbean`). -/
def pulseWeights : Weights :=
  { nitrogen := 0.05, phosphorus := 0.2, potassium := 0.2,
    temperature := 0.2, rainfall := 0.2, ph := 0.15 }

/-- Weights for fruits (`apple`, `banana`, `mango`, `grapes`, `orange`,
`papaya`, `coconut`, `watermelon`). -/
def fruitWeights : Weights :=
  { nitrogen := 0.15, phosphorus := 0.15, potassium := 0.2,
    temperature := 0.25, rainfall := 0.2, ph := 0.15 }

/-- Weights for cash crops (`cotton`, `jute`, `coffee`). -/
def cashCropWeights : Weights :=
  { nitrogen := 0.15, phosphorus := 0.15, potassium := 0.15,
    temperature := 0.25, rainfall := 0.2, ph := 0.1 }

/-- The crop-type dispatch of `calculateCropSuitabilityScore` (`cropType` is
the lower-cased English crop name). -/
def getWeights (cropType : String) : Weights :=
  if ["rice", "wheat", "maize"].contains cropType then cerealWeights
  else if ["lentil", "chickpea", "pigeonpeas", "blackgram", "mungbean"].contains cropType then
    pulseWeights
  else if ["apple", "banana", "mango", "grapes", "orange", "papaya", "coconut",
      "watermelon"].contains cropType then
    fruitWeights
  else if ["cotton", "jute", "coffee"].contains cropType then cashCropWeights
  else defaultWeights

/-- Sum of a weight vector over all six scored parameters (the source has no
humidity weight at all). -/
def weightSum (w : Weights) : ℚ :=
  w.nitrogen + w.phosphorus + w.potassium + w.temperature + w.rainfall + w.ph

/-- The `nutrientRequirements` record of the `ExtendedCrop` interface. -/
structure NutrientReq where
  nitrogen : ℚ
  phosphorus : ℚ
  potassium : ℚ
deriving DecidableEq

/-- The `ExtendedCrop` fields used by the scorer: the underlying crop plus the
optional nutrient requirements. -/
structure ExtendedCrop where
  toCrop : Crop
  nutrientRequirements : Option NutrientReq
deriving DecidableEq

/-- JS `x?.f || d`: an absent record, or a present but zero (falsy) field,
falls back to the default. -/
def orDefault (o : Option ℚ) (d : ℚ) : ℚ :=
  match o with
  | none => d
  | some v => if v = 0 then d else v

/-- The common shape `1 - Math.min(Math.abs(value - req) / req, 1) * 0.8` of
the three nutrient scores in `calculateNutrientScore`. -/
def nutrientPointScore (value req : ℚ) : ℚ :=
  1 - min (|value - req| / req) 1 * 0.8

/-- The nitrogen branch of `calculateNutrientScore` (denormalizes by the 0-140
domain range; 0.5 when the parameter is absent). -/
def nScoreOf (nitrogen : Option ℚ) (nReq : ℚ) : ℚ :=
  match nitrogen with
  | none => 0.5
  | some n => nutrientPointScore (n * 140) nReq

/-- The phosphorus branch of `calculateNutrientScore` (5-145 domain range). -/
def pScoreOf (phosphorus : Option ℚ) (pReq : ℚ) : ℚ :=
  match phosphorus with
  | none => 0.5
  | some p => nutrientPointScore (p * (145 - 5) + 5) pReq

/-- The potassium branch of `calculateNutrientScore` (5-205 domain range). -/
def kScoreOf (potassium : Option ℚ) (kReq : ℚ) : ℚ :=
  match potassium with
  | none => 0.5
  | some k => nutrientPointScore (k * (205 - 5) + 5) kReq

/-- The `calculateNutrientScore` function of `service.ts`: the plain average of
the three point-requirement scores. -/
def calculateNutrientScore (params : RecParams) (crop : ExtendedCrop) : ℚ :=
  let nReq := orDefault (crop.nutrientRequirements.map (·.nitrogen)) 70
  let pReq := orDefault (crop.nutrientRequirements.map (·.phosphorus)) 75
  let kReq := orDefault (crop.nutrientRequirements.map (·.potassium)) 100
  (nScoreOf params.nitrogen nReq + pScoreOf params.phosphorus pReq +
    kScoreOf params.potassium kReq) / 3

/-- The raw pH score of `calculateCropSuitabilityScore` before `Math.max(0, ·)`
(tent around the range midpoint inside the crop range, distance-to-bound
penalty outside). -/
def phScoreRaw (phNorm : ℚ) (c : Crop) : ℚ :=
  let phValue := phNorm * (9.9 - 3.5) + 3.5
  let optimalPhMid := (c.soil_ph_min + c.soil_ph_max) / 2
  let phRange := c.soil_ph_max - c.soil_ph_min
  if c.soil_ph_min ≤ phValue ∧ phValue ≤ c.soil_ph_max then
    1 - 0.5 * |phValue - optimalPhMid| / (phRange / 2)
  else
    0.5 - min |phValue - c.soil_ph_min| |phValue - c.soil_ph_max| / phRange

/-- The pH sub-score: `Math.max(0, phScore)`. -/
def phSubScore (phNorm : ℚ) (c : Crop) : ℚ := max 0 (phScoreRaw phNorm c)

/-- The raw temperature score of `calculateCropSuitabilityScore` (10-44 domain
range, same shape as the pH score). -/
def tempScoreRaw (tempNorm : ℚ) (c : Crop) : ℚ :=
  let tempValue := tempNorm * (44 - 10) + 10
  let optimalTempMid := (c.temperature_min + c.temperature_max) / 2
  let tempRange := c.temperature_max - c.temperature_min
  if c.temperature_min ≤ tempValue ∧ tempValue ≤ c.temperature_max then
    1 - 0.5 * |tempValue - optimalTempMid| / (tempRange / 2)
  else
    0.5 - min |tempValue - c.temperature_min| |tempValue - c.temperature_max| / tempRange

/-- The temperature sub-score: `Math.max(0, tempScore)`. -/
def tempSubScore (tempNorm : ℚ) (c : Crop) : ℚ := max 0 (tempScoreRaw tempNorm c)

/-- The raw rainfall score of `calculateCropSuitabilityScore` (20-298 domain
range; tent coefficient 0.3 inside the range, base 0.7 outside). -/
def rainScoreRaw (rainNorm : ℚ) (c : Crop) : ℚ :=
  let rainValue := rainNorm * (298 - 20) + 20
  let optimalRainMid := (c.rainfall_min + c.rainfall_max) / 2
  let rainRange := c.rainfall_max - c.rainfall_min
  if c.rainfall_min ≤ rainValue ∧ rainValue ≤ c.rainfall_max then
    1 - 0.3 * |rainValue - optimalRainMid| / (rainRange / 2)
  else
    0.7 - min |rainValue - c.rainfall_min| |rainValue - c.rainfall_max| / rainRange

/-- The rainfall sub-score: `Math.max(0, rainScore)`. -/
def rainSubScore (rainNorm : ℚ) (c : Crop) : ℚ := max 0 (rainScoreRaw rainNorm c)

/-- The non-NPK part of `calculateCropSuitabilityScore`: the weighted pH,
temperature and rainfall contributions (0.5 substitutes for a missing
parameter). -/
def nonNPKScore (params : RecParams) (crop : ExtendedCrop) : ℚ :=
  let weights := getWeights (jsToLower crop.toCrop.name_en)
  (match params.ph with
    | some v => weights.ph * phSubScore v crop.toCrop
    | none => weights.ph * 0.5) +
  (match params.temperature with
    | some v => weights.temperature * tempSubScore v crop.toCrop
    | none => weights.temperature * 0.5) +
  (match params.rainfall with
    | some v => weights.rainfall * rainSubScore v crop.toCrop
    | none => weights.rainfall * 0.5)

/-- The `calculateCropSuitabilityScore` function of `service.ts`: weighted sum
of the six sub-scores, scaled to 0-100. -/
def calculateCropSuitabilityScore (params : RecParams) (crop : ExtendedCrop) : ℚ :=
  let weights := getWeights (jsToLower crop.toCrop.name_en)
  let npk :=
    if params.nitrogen.isSome || params.phosphorus.isSome || params.potassium.isSome then
      (weights.nitrogen + weights.phosphorus + weights.potassium) *
        calculateNutrientScore params crop
    else
      (weights.nitrogen + weights.phosphorus + weights.potassium) * 0.5
  (nonNPKScore params crop + npk) * 100

/-- A crop together with the extra fields attached by
`getCropRecommendations`. -/
structure ScoredCrop where
  crop : Crop
  suitabilityScore : ℚ
  seasonalSuitability : String
  isModelRecommended : Bool
deriving DecidableEq

/-- The conditional normalization at the head of `getCropRecommendations`:
parameters are normalized only when all four soil values are supplied. -/
def conditionallyNormalized (params : RecParams) : RecParams :=
  if params.nitrogen.isSome && params.phosphorus.isSome &&
      params.potassium.isSome && params.ph.isSome then
    normalizeParameters params
  else params

/-- The per-crop scoring step of `getCropRecommendations`. `randomDraw` is the
`Math.random()` value drawn for this crop and `modelPredicted` the lower-cased
crop name returned by the (mocked) ML model, when that call succeeded. -/
def scoreCrop (normalizedParams : RecParams) (seasonParam : Option String)
    (modelPredicted : Option String) (randomDraw : ℚ) (crop : Crop) : ScoredCrop :=
  let extendedCrop : ExtendedCrop := ⟨crop, some ⟨70, 75, 100⟩⟩
  let suitabilityScore := calculateCropSuitabilityScore normalizedParams extendedCrop
  let randomFactor := 0.9 + randomDraw * 0.2
  let seasonalityFactor := getSeasonalityFactor seasonParam crop.name_en
  let isBoosted := modelPredicted.any fun m => jsToLower crop.name_en == m
  let modelBoostFactor : ℚ := if isBoosted then 1.5 else 1.0
  let finalScore := suitabilityScore * randomFactor * seasonalityFactor * modelBoostFactor
  { crop := crop
    suitabilityScore := clamp finalScore 0 100
    seasonalSuitability := getSeasonalSuitabilityLabel seasonalityFactor
    isModelRecommended := isBoosted }

/-- Ordering used by `.sort((a, b) => (b.suitabilityScore || 0) -
(a.suitabilityScore || 0))`: descending suitability score (in this model
`suitabilityScore` is always present, so the `|| 0` fallbacks are identities). -/
@[reducible]
def scoreGE : ScoredCrop → ScoredCrop → Prop := keyGE (·.suitabilityScore)

/-- The unsorted scored list of `getCropRecommendations`. `defaultCrops`
stands for the randomly generated `getDefaultCrops()` list and `rand` for the
per-index `Math.random()` draws. -/
def scoredCropsOf (params : RecParams) (availableCrops : List Crop)
    (defaultCrops : List Crop) (rand : ℕ → ℚ) (modelPredicted : Option String) :
    List ScoredCrop :=
  let normalizedParams := conditionallyNormalized params
  let crops := if availableCrops.length > 0 then availableCrops else defaultCrops
  crops.mapIdx fun i crop =>
    scoreCrop normalizedParams params.season modelPredicted (rand i) crop

/-- The scored-and-sorted stage of `getCropRecommendations` (before the final
display projection). -/
def getCropRecommendationsScored (params : RecParams) (availableCrops : List Crop)
    (defaultCrops : List Crop) (rand : ℕ → ℚ) (modelPredicted : Option String) :
    List ScoredCrop :=
  (scoredCropsOf params availableCrops defaultCrops rand modelPredicted).insertionSort scoreGE

/-- The `processCropsForDisplay` projection of `service.ts` (keeps only the
`Crop` fields, in order). -/
def processCropsForDisplay (crops : List ScoredCrop) : List Crop :=
  crops.map (·.crop)

/-- The `getCropRecommendations` ranker of `service.ts`. -/
def getCropRecommendations (params : RecParams) (availableCrops : List Crop)
    (defaultCrops : List Crop) (rand : ℕ → ℚ) (modelPredicted : Option String) :
    List Crop :=
  processCropsForDisplay
    (getCropRecommendationsScored params availableCrops defaultCrops rand modelPredicted)

/-- The financial fields of one AI-generated record handled by the
`ai-crop-recommendations` edge function (the non-financial fields pass
through the pipeline untouched and are omitted). -/
structure AIRec where
  totalInvestment : ℚ
  expectedReturn : ℚ
  profitAmount : ℚ
  actualROI : ℚ
deriving DecidableEq

/-- The `validatedRecommendations` pass of the edge function: recompute profit
and ROI from the unscaled AI figures, scale investment and return by farm area
(rounding to whole rupees), and keep only profitable records. -/
def validatedRecommendations (recs : List AIRec) (farmArea : ℚ) (u : AreaUnit) :
    List AIRec :=
  (recs.map fun crop =>
    let profit := crop.expectedReturn - crop.totalInvestment
    let roi := profit / crop.totalInvestment * 100
    { totalInvestment := jsRound (crop.totalInvestment * areaInAcres farmArea u)
      expectedReturn := jsRound (crop.expectedReturn * areaInAcres farmArea u)
      profitAmount := profit
      actualROI := roundTenth roi }).filter fun crop => decide (0 < crop.profitAmount)

/-- The `finalRecommendations` pass of the edge function: recompute profit and
ROI (the latter via `toFixed(1)`) from the scaled figures. -/
def finalRecommendations (recs : List AIRec) (farmArea : ℚ) (u : AreaUnit) :
    List AIRec :=
  (validatedRecommendations recs farmArea u).map fun crop =>
    { crop with
      profitAmount := crop.expectedReturn - crop.totalInvestment
      actualROI := roundTenth
        ((crop.expectedReturn - crop.totalInvestment) / crop.totalInvestment * 100) }

/-- A JavaScript IEEE-754 value, restricted to what the scorer can produce: an
exact (rational) value, `NaN`, or a signed infinity. Rounding never occurs in
the failure analyses below, so this model is exact on the paths it is used
for; the sign of zero is not tracked (the scorer only ever divides by `+0`). -/
inductive JSNum
  | num (q : ℚ)
  | nan
  | inf
  | ninf
deriving DecidableEq

namespace JSNum

/-- JS addition on `JSNum`. -/
def add : JSNum → JSNum → JSNum
  | num a, num b => num (a + b)
  | nan, _ => nan
  | _, nan => nan
  | inf, ninf => nan
  | ninf, inf => nan
  | inf, _ => inf
  | _, inf => inf
  | ninf, _ => ninf
  | _, ninf => ninf

/-- JS negation on `JSNum`. -/
def neg : JSNum → JSNum
  | num a => num (-a)
  | nan => nan
  | inf => ninf
  | ninf => inf

/-- JS subtraction on `JSNum`. -/
def sub (a b : JSNum) : JSNum := add a (neg b)

/-- JS multiplication on `JSNum` (`Infinity * 0 = NaN`). -/
def mul : JSNum → JSNum → JSNum
  | num a, num b => num (a * b)
  | nan, _ => nan
  | _, nan => nan
  | inf, num b => if b = 0 then nan else if 0 < b then inf else ninf
  | num a, inf => if a = 0 then nan else if 0 < a then inf else ninf
  | ninf, num b => if b = 0 then nan else if 0 < b then ninf else inf
  | num a, ninf => if a = 0 then nan else if 0 < a then ninf else inf
  | inf, inf => inf
  | inf, ninf => ninf
  | ninf, inf => ninf
  | ninf, ninf => inf

/-- JS division on `JSNum`: `0/0 = NaN`, a nonzero value divided by `+0` gives
a signed infinity. -/
def div : JSNum → JSNum → JSNum
  | num a, num b =>
    if b = 0 then (if a = 0 then nan else if 0 < a then inf else ninf)
    else num (a / b)
  | nan, _ => nan
  | _, nan => nan
  | inf, num b => if 0 ≤ b then inf else ninf
  | ninf, num b => if 0 ≤ b then ninf else inf
  | num _, inf => num 0
  | num _, ninf => num 0
  | inf, inf => nan
  | inf, ninf => nan
  | ninf, inf => nan
  | ninf, ninf => nan

/-- JS `Math.max` on `JSNum` (`NaN` absorbs). -/
def jsMax : JSNum → JSNum → JSNum
  | num a, num b => num (max a b)
  | nan, _ => nan
  | _, nan => nan
  | inf, _ => inf
  | _, inf => inf
  | ninf, b => b
  | a, ninf => a

/-- JS `Math.min` on `JSNum` (`NaN` absorbs). -/
def jsMin : JSNum → JSNum → JSNum
  | num a, num b => num (min a b)
  | nan, _ => nan
  | _, nan => nan
  | ninf, _ => ninf
  | _, ninf => ninf
  | inf, b => b
  | a, inf => a

/-- Whether a `JSNum` is an ordinary value inside `[lo, hi]` (`NaN` and the
infinities are not). -/
def inRange (v : JSNum) (lo hi : ℚ) : Bool :=
  match v with
  | num q => decide (lo ≤ q) && decide (q ≤ hi)
  | _ => false

end JSNum

/-- The pH branch of `calculateCropSuitabilityScore` under IEEE semantics.
The denormalization, midpoint, width, absolute values and the in-range test
work on ordinary finite numbers and cannot overflow, so they are computed in
`ℚ`; the divisions, the subtractions from the constant and `Math.max` are the
operations that can meet a zero divisor, and they are performed in `JSNum`. -/
def jsPhSubScore (phNorm : ℚ) (c : Crop) : JSNum :=
  let phValue := phNorm * (9.9 - 3.5) + 3.5
  let optimalPhMid := (c.soil_ph_min + c.soil_ph_max) / 2
  let phRange := c.soil_ph_max - c.soil_ph_min
  let raw :=
    if c.soil_ph_min ≤ phValue ∧ phValue ≤ c.soil_ph_max then
      JSNum.sub (JSNum.num 1)
        (JSNum.div (JSNum.num (0.5 * |phValue - optimalPhMid|))
          (JSNum.num (phRange / 2)))
    else
      JSNum.sub (JSNum.num 0.5)
        (JSNum.div (JSNum.num (min |phValue - c.soil_ph_min| |phValue - c.soil_ph_max|))
          (JSNum.num phRange))
  JSNum.jsMax (JSNum.num 0) raw

/-- The temperature branch of `calculateCropSuitabilityScore` under IEEE
semantics (same conventions as `jsPhSubScore`). -/
def jsTempSubScore (tempNorm : ℚ) (c : Crop) : JSNum :=
  let tempValue := tempNorm * (44 - 10) + 10
  let optimalTempMid := (c.temperature_min + c.temperature_max) / 2
  let tempRange := c.temperature_max - c.temperature_min
  let raw :=
    if c.temperature_min ≤ tempValue ∧ tempValue ≤ c.temperature_max then
      JSNum.sub (JSNum.num 1)
        (JSNum.div (JSNum.num (0.5 * |tempValue - optimalTempMid|))
          (JSNum.num (tempRange / 2)))
    else
      JSNum.sub (JSNum.num 0.5)
        (JSNum.div
          (JSNum.num (min |tempValue - c.temperature_min| |tempValue - c.temperature_max|))
          (JSNum.num tempRange))
  JSNum.jsMax (JSNum.num 0) raw

/-- The rainfall branch of `calculateCropSuitabilityScore` under IEEE
semantics (same conventions as `jsPhSubScore`). -/
def jsRainSubScore (rainNorm : ℚ) (c : Crop) : JSNum :=
  let rainValue := rainNorm * (298 - 20) + 20
  let optimalRainMid := (c.rainfall_min + c.rainfall_max) / 2
  let rainRange := c.rainfall_max - c.rainfall_min
  let raw :=
    if c.rainfall_min ≤ rainValue ∧ rainValue ≤ c.rainfall_max then
      JSNum.sub (JSNum.num 1)
        (JSNum.div (JSNum.num (0.3 * |rainValue - optimalRainMid|))
          (JSNum.num (rainRange / 2)))
    else
      JSNum.sub (JSNum.num 0.7)
        (JSNum.div (JSNum.num (min |rainValue - c.rainfall_min| |rainValue - c.rainfall_max|))
          (JSNum.num rainRange))
  JSNum.jsMax (JSNum.num 0) raw

/-- The `calculateNutrientScore` function under IEEE semantics (its divisors
are the nutrient requirements, guarded to be nonzero by the `|| default`
fallbacks, and the constant 3). -/
def jsCalculateNutrientScore (params : RecParams) (crop : ExtendedCrop) : JSNum :=
  let nReq := orDefault (crop.nutrientRequirements.map (·.nitrogen)) 70
  let pReq := orDefault (crop.nutrientRequirements.map (·.phosphorus)) 75
  let kReq := orDefault (crop.nutrientRequirements.map (·.potassium)) 100
  let nS := match params.nitrogen with
    | none => JSNum.num 0.5
    | some n => JSNum.sub (JSNum.num 1)
        (JSNum.mul (JSNum.jsMin (JSNum.div (JSNum.num |n * 140 - nReq|) (JSNum.num nReq))
          (JSNum.num 1)) (JSNum.num 0.8))
  let pS := match params.phosphorus with
    | none => JSNum.num 0.5
    | some p => JSNum.sub (JSNum.num 1)
        (JSNum.mul (JSNum.jsMin
          (JSNum.div (JSNum.num |p * (145 - 5) + 5 - pReq|) (JSNum.num pReq))
          (JSNum.num 1)) (JSNum.num 0.8))
  let kS := match params.potassium with
    | none => JSNum.num 0.5
    | some k => JSNum.sub (JSNum.num 1)
        (JSNum.mul (JSNum.jsMin
          (JSNum.div (JSNum.num |k * (205 - 5) + 5 - kReq|) (JSNum.num kReq))
          (JSNum.num 1)) (JSNum.num 0.8))
  JSNum.div (JSNum.add (JSNum.add nS pS) kS) (JSNum.num 3)

/-- The `calculateCropSuitabilityScore` function under IEEE semantics. -/
def jsCalculateCropSuitabilityScore (params : RecParams) (crop : ExtendedCrop) : JSNum :=
  let weights := getWeights (jsToLower crop.toCrop.name_en)
  let phC := match params.ph with
    | some v => JSNum.mul (JSNum.num weights.ph) (jsPhSubScore v crop.toCrop)
    | none => JSNum.num (weights.ph * 0.5)
  let tC := match params.temperature with
    | some v => JSNum.mul (JSNum.num weights.temperature) (jsTempSubScore v crop.toCrop)
    | none => JSNum.num (weights.temperature * 0.5)
  let rC := match params.rainfall with
    | some v => JSNum.mul (JSNum.num weights.rainfall) (jsRainSubScore v crop.toCrop)
    | none => JSNum.num (weights.rainfall * 0.5)
  let npkC :=
    if params.nitrogen.isSome || params.phosphorus.isSome || params.potassium.isSome then
      JSNum.mul (JSNum.num (weights.nitrogen + weights.phosphorus + weights.potassium))
        (jsCalculateNutrientScore params crop)
    else
      JSNum.num ((weights.nitrogen + weights.phosphorus + weights.potassium) * 0.5)
  JSNum.mul (JSNum.add (JSNum.add (JSNum.add phC tC) rC) npkC) (JSNum.num 100)

/-- The stored `suitabilityScore` of `getCropRecommendations` under IEEE
semantics: the base score times the jitter, seasonality and model-boost
factors, clamped by `Math.min(Math.max(·, 0), 100)`. -/
def jsStoredScore (params : RecParams) (crop : Crop) (randomDraw seasonality boost : ℚ) :
    JSNum :=
  let extendedCrop : ExtendedCrop := ⟨crop, some ⟨70, 75, 100⟩⟩
  let base := jsCalculateCropSuitabilityScore params extendedCrop
  let finalScore := JSNum.mul (JSNum.mul (JSNum.mul base (JSNum.num (0.9 + randomDraw * 0.2)))
    (JSNum.num seasonality)) (JSNum.num boost)
  JSNum.jsMin (JSNum.jsMax finalScore (JSNum.num 0)) (JSNum.num 100)

/-- Follows the spec's words (claim C3), for comparison with
`normalizeParameters`: the claimed per-parameter normalizer
`clamp((value - min) / (max - min), 0, 1)` over a fixed domain range. -/
def specClaimedNormalize (value lo hi : ℚ) : ℚ :=
  clamp ((value - lo) / (hi - lo)) 0 1

/-- Follows the spec's words (claim C2), for comparison with the nutrient
scores of `calculateNutrientScore`: 1 inside the crop's optimal range,
otherwise 1 minus the distance outside the range divided by the range width,
floored at 0 (the spec's default nitrogen range is [60, 100]). -/
def specClaimedNutrientSubScore (value lo hi : ℚ) : ℚ :=
  if lo ≤ value ∧ value ≤ hi then 1
  else max 0 (1 - (if value < lo then lo - value else value - hi) / (hi - lo))

/-- Parameter record with every field absent (test fixture). -/
def emptyParams : RecParams :=
  { nitrogen := none, phosphorus := none, potassium := none, temperature := none,
    humidity := none, ph := none, rainfall := none, season := none, state := none }

/-- Test crop with positive-width ranges (pH 6-7.5, temperature 15-25,
rainfall 300-800) and a name outside every weight-table list. -/
def testCrop : Crop :=
  { id := 100, name_en := "Testcrop", name_hi := "testcrop-hi", season := Season.rabi,
    soil_ph_min := 6, soil_ph_max := 7.5,
    temperature_min := 15, temperature_max := 25,
    rainfall_min := 300, rainfall_max := 800,
    investment_per_acre := 10000, expected_yield_per_acre := 10,
    roi_percentage := 20, current_price_per_kg := 30,
    growing_states := ["Punjab"],
    image := "t", description_en := "t-en", description_hi := "t-hi" }

/-- Test crop whose soil-pH range has zero width (`soil_ph_min = soil_ph_max
= 7`); the other ranges are nondegenerate. -/
def zeroWidthCrop : Crop :=
  { testCrop with id := 101, name_en := "Zerocrop", soil_ph_min := 7, soil_ph_max := 7 }

/-- Parameter record supplying only a pH of 35/64, which denormalizes to the
physical pH 35/64 · 6.4 + 3.5 = 7 (test fixture). -/
def phOnlyParams : RecParams :=
  { emptyParams with ph := some (35/64) }

/-- An AI record as produced by the model for a 1-acre farm: investment
30000, return 40000 (test fixture for the edge-function passes). -/
def aiRec0 : AIRec :=
  { totalInvestment := 30000, expectedReturn := 40000, profitAmount := 0, actualROI := 0 }

/-- Inserting `x` under the descending-key order commutes with filtering for
one key value: elements passed over by the insertion have a strictly larger
key, so the key-`s` elements keep their relative order (stability core). -/
theorem filter_orderedInsert_key {α : Type} (key : α → ℚ) (s : ℚ) (x : α) :
    ∀ t : List α, (t.orderedInsert (keyGE key) x).filter (fun c => decide (key c = s)) =
      (x :: t).filter (fun c => decide (key c = s))
  | [] => rfl
  | b :: t => by
    by_cases hxb : keyGE key x b
    · rw [List.orderedInsert, if_pos hxb]
    · rw [List.orderedInsert, if_neg hxb]
      have hlt : key x < key b := lt_of_not_le hxb
      by_cases hx : key x = s
      · have hb : ¬(key b = s) := fun hbs => absurd (hx.trans hbs.symm) (ne_of_lt hlt)
        simp [List.filter_cons, hx, hb, filter_orderedInsert_key key s x t]
      · simp [List.filter_cons, hx, filter_orderedInsert_key key s x t]
  termination_by t => t.length

/-- Insertion sort under the descending-key order is stable: for each key
value the subsequence of elements with that key is unchanged. -/
theorem filter_insertionSort_key {α : Type} (key : α → ℚ) (s : ℚ) :
    ∀ l : List α, (l.insertionSort (keyGE key)).filter (fun c => decide (key c = s)) =
      l.filter (fun c => decide (key c = s))
  | [] => rfl
  | a :: l => by
    rw [List.insertionSort, filter_orderedInsert_key, List.filter_cons, List.filter_cons,
      filter_insertionSort_key key s l]

/-- Every record output by `calculateRecommendations` is the `financials`
image of some crop that survived both filters. -/
theorem mem_calculateRecommendations {pincode : String} {farmArea : ℚ}
    {previousCrops : List String} {u : AreaUnit} {currentSeason : Season}
    {r : Recommendation}
    (hr : r ∈ calculateRecommendations pincode farmArea previousCrops u currentSeason) :
    ∃ c ∈ rotationFiltered pincode previousCrops currentSeason,
      r = financials (areaInAcres farmArea u) c := by
  have h1 : r ∈ sortedRecommendations pincode farmArea previousCrops u currentSeason :=
    List.take_subset _ _ hr
  have h2 : r ∈ mappedRecommendations pincode farmArea previousCrops u currentSeason :=
    (List.mem_insertionSort _).1 h1
  obtain ⟨c, hc, he⟩ := List.mem_map.1 h2
  exact ⟨c, hc, he.symm⟩

/-- The service ranker never truncates: its output has one record per input
crop whenever the input list is nonempty. -/
theorem length_getCropRecommendations (params : RecParams) (availableCrops : List Crop)
    (defaultCrops : List Crop) (rand : ℕ → ℚ) (modelPredicted : Option String)
    (h : availableCrops ≠ []) :
    (getCropRecommendations params availableCrops defaultCrops rand modelPredicted).length =
      availableCrops.length := by
  have hl : availableCrops.length > 0 := List.length_pos.2 h
  unfold getCropRecommendations processCropsForDisplay getCropRecommendationsScored scoredCropsOf
  simp [List.length_insertionSort, if_pos hl]

/-- When at most five crops survive the filters, the `slice(0, 5)` keeps the
record of every surviving crop. -/
theorem mem_calculateRecommendations_of_le5 {pincode : String} {farmArea : ℚ}
    {previousCrops : List String} {u : AreaUnit} {currentSeason : Season} {c : Crop}
    (hc : c ∈ rotationFiltered pincode previousCrops currentSeason)
    (hlen : (rotationFiltered pincode previousCrops currentSeason).length ≤ 5) :
    financials (areaInAcres farmArea u) c ∈
      calculateRecommendations pincode farmArea previousCrops u currentSeason := by
  unfold calculateRecommendations
  rw [List.take_of_length_le]
  · exact (List.mem_insertionSort _).2 (List.mem_map_of_mem _ hc)
  · rw [sortedRecommendations, List.length_insertionSort, mappedRecommendations,
      List.length_map]
    exact hlen

/-- C7 counterexample: the fruit-category weight vector (used, for example,
for `apple`) sums to 1.1, exceeding the claimed bound of 1. -/
theorem C7_counterexample :
    getWeights "apple" = fruitWeights ∧ weightSum fruitWeights = 11/10 ∧
      ¬(weightSum fruitWeights ≤ 1) := by
  refine ⟨rfl, by norm_num [weightSum, fruitWeights], by norm_num [weightSum, fruitWeights]⟩

/-- C7 (amended): the scorer's weight vectors sum to exactly 1 for the
default, cereal, pulse and cash-crop categories, but to 1.1 for the fruit
category, and every crop name is dispatched to one of these five vectors. -/
theorem C7_weight_sums :
    weightSum defaultWeights = 1 ∧ weightSum cerealWeights = 1 ∧
    weightSum pulseWeights = 1 ∧ weightSum cashCropWeights = 1 ∧
    weightSum fruitWeights = 11/10 ∧
    ∀ name : String, getWeights name = defaultWeights ∨ getWeights name = cerealWeights ∨
      getWeights name = pulseWeights ∨ getWeights name = cashCropWeights ∨
      getWeights name = fruitWeights := by
  refine ⟨by norm_num [weightSum, defaultWeights], by norm_num [weightSum, cerealWeights],
    by norm_num [weightSum, pulseWeights], by norm_num [weightSum, cashCropWeights],
    by norm_num [weightSum, fruitWeights], ?_⟩
  intro name
  unfold getWeights
  split_ifs <;> tauto

/-- C3 counterexample: for the raw nitrogen value 70 the claimed normalizer
`clamp((value - 0)/(140 - 0), 0, 1)` returns 0.5, but `normalizeParameters`
clamps the raw value itself and returns 1. -/
theorem C3_counterexample :
    (normalizeParameters { emptyParams with nitrogen := some 70 }).nitrogen = some 1 ∧
    specClaimedNormalize 70 0 140 = 1/2 ∧ (1 : ℚ) ≠ 1/2 := by
  refine ⟨?_, by norm_num [specClaimedNormalize, clamp], by norm_num⟩
  show some (clamp 70 0 1) = some 1
  norm_num [clamp]

/-- C3 (amended): `normalizeParameters` clamps each supplied parameter value
directly into [0, 1] (it is the identity on already-normalized values and
never rescales by a domain range); absent parameters and the season and state
fields pass through unchanged, and no input is rejected. -/
theorem C3_normalizer_clamps :
    ∀ p : RecParams,
      ((normalizeParameters p).nitrogen = p.nitrogen.map (fun v => clamp v 0 1) ∧
       (normalizeParameters p).phosphorus = p.phosphorus.map (fun v => clamp v 0 1) ∧
       (normalizeParameters p).potassium = p.potassium.map (fun v => clamp v 0 1) ∧
       (normalizeParameters p).temperature = p.temperature.map (fun v => clamp v 0 1) ∧
       (normalizeParameters p).humidity = p.humidity.map (fun v => clamp v 0 1) ∧
       (normalizeParameters p).ph = p.ph.map (fun v => clamp v 0 1) ∧
       (normalizeParameters p).rainfall = p.rainfall.map (fun v => clamp v 0 1) ∧
       (normalizeParameters p).season = p.season ∧
       (normalizeParameters p).state = p.state) ∧
      ∀ x : ℚ, 0 ≤ clamp x 0 1 ∧ clamp x 0 1 ≤ 1 ∧ (0 ≤ x → x ≤ 1 → clamp x 0 1 = x) := by
  intro p
  refine ⟨⟨rfl, rfl, rfl, rfl, rfl, rfl, rfl, rfl, rfl⟩, fun x => ?_⟩
  refine ⟨le_min (le_max_right x 0) (by norm_num), min_le_right _ _, fun h0 h1 => ?_⟩
  rw [clamp, max_eq_left h0, min_eq_left h1]

/-- C3 witness: the amended normalizer facts at a concrete record and at the
in-range value 1/2, where the clamp is the identity. -/
theorem C3_witness :
    (normalizeParameters { emptyParams with ph := some (1/2) }).ph = some (clamp (1/2) 0 1) ∧
    clamp (1/2 : ℚ) 0 1 = 1/2 :=
  ⟨(C3_normalizer_clamps { emptyParams with ph := some (1/2) }).1.2.2.2.2.2.1,
   ((C3_normalizer_clamps emptyParams).2 (1/2)).2.2 (by norm_num) (by norm_num)⟩

/-- C8 counterexample: in winter the seasonality factor for wheat is 1.3,
which is neither the claimed match multiplier 1.1 nor the claimed mismatch
multiplier 0.9. -/
theorem C8_counterexample :
    getSeasonalityFactor (some "winter") "Wheat" = 13/10 ∧
    (13/10 : ℚ) ≠ 11/10 ∧ (13/10 : ℚ) ≠ 9/10 := by
  refine ⟨?_, by norm_num, by norm_num⟩
  show (1.3 : ℚ) = 13/10
  norm_num

/-- C8 (amended): the fallback ranker's season is derived from the calendar
month as months 4-9 → kharif, otherwise rabi; the service's seasonal factor
is not a match/mismatch multiplier but a hard-coded per-season crop table
with values in {0.9, 1, 1.1, 1.2, 1.3}, neutral (1) when the season is
missing or unknown. -/
theorem C8_season_and_factor_table :
    (∀ month : ℕ, 1 ≤ month → month ≤ 12 →
      getCurrentSeason month =
        if 4 ≤ month ∧ month ≤ 9 then Season.kharif else Season.rabi) ∧
    (∀ name : String, getSeasonalityFactor none name = 1) ∧
    (∀ s name, getSeasonalityFactor (some s) name ∈ ([0.9, 1.0, 1.1, 1.2, 1.3] : List ℚ)) ∧
    getSeasonalityFactor (some "winter") "wheat" = 13/10 ∧
    getSeasonalityFactor (some "summer") "cotton" = 13/10 ∧
    getSeasonalityFactor (some "monsoon") "cotton" = 11/10 ∧
    getSeasonalityFactor (some "winter") "rice" = 9/10 ∧
    getSeasonalityFactor (some "spring") "wheat" = 1 := by
  have w13 : getSeasonalityFactor (some "winter") "wheat" = 13/10 := by
    show (1.3 : ℚ) = 13/10
    norm_num
  have s13 : getSeasonalityFactor (some "summer") "cotton" = 13/10 := by
    show (1.3 : ℚ) = 13/10
    norm_num
  have m11 : getSeasonalityFactor (some "monsoon") "cotton" = 11/10 := by
    show (1.1 : ℚ) = 11/10
    norm_num
  have w09 : getSeasonalityFactor (some "winter") "rice" = 9/10 := by
    show (0.9 : ℚ) = 9/10
    norm_num
  have sp1 : getSeasonalityFactor (some "spring") "wheat" = 1 := by
    show (1.0 : ℚ) = 1
    norm_num
  have hnone : ∀ name : String, getSeasonalityFactor none name = 1 := by
    intro name
    show (1.0 : ℚ) = 1
    norm_num
  refine ⟨?_, hnone, ?_, w13, s13, m11, w09, sp1⟩
  · intro m h1 h2
    unfold getCurrentSeason
    split_ifs with hk hr
    · rfl
    · rfl
    · omega
  · intro s name
    dsimp only [getSeasonalityFactor]
    split_ifs <;> simp

/-- C8 witness: the month mapping evaluated at May (kharif) and December
(rabi). -/
theorem C8_witness :
    getCurrentSeason 5 = Season.kharif ∧ getCurrentSeason 12 = Season.rabi :=
  ⟨(C8_season_and_factor_table.1 5 (by decide) (by decide)).trans (by decide),
   (C8_season_and_factor_table.1 12 (by decide) (by decide)).trans (by decide)⟩

/-- C4: with a zero-width pH range and a pH exactly at the single point, the
source divides zero by zero: the pH sub-score is NaN (not the claimed 1) and
the NaN propagates into the crop's whole suitability score; a pH away from
the single point yields sub-score 0, as the claim states. -/
theorem C4_zero_width_nan :
    jsPhSubScore (35/64) zeroWidthCrop = JSNum.nan ∧
    jsCalculateCropSuitabilityScore phOnlyParams ⟨zeroWidthCrop, some ⟨70, 75, 100⟩⟩ =
      JSNum.nan ∧
    jsPhSubScore (1/2) zeroWidthCrop = JSNum.num 0 := by
  refine ⟨?_, ?_, ?_⟩
  · norm_num [jsPhSubScore, zeroWidthCrop, testCrop, JSNum.sub, JSNum.add, JSNum.neg,
      JSNum.div, JSNum.mul, JSNum.jsMax]
  · norm_num [jsCalculateCropSuitabilityScore, phOnlyParams, emptyParams, getWeights,
      defaultWeights, jsToLower, jsPhSubScore, zeroWidthCrop, testCrop, JSNum.sub, JSNum.add,
      JSNum.neg, JSNum.div, JSNum.mul, JSNum.jsMax]
  · norm_num [jsPhSubScore, zeroWidthCrop, testCrop, JSNum.sub, JSNum.add, JSNum.neg,
      JSNum.div, JSNum.mul, JSNum.jsMax]

/-- C9: for every crop whose declared range for a dimension has positive
width, a supplied parameter that denormalizes exactly to the range midpoint
scores 1 in that dimension — for pH, temperature and rainfall alike. -/
theorem C9_midpoint_scores_one :
    ∀ (c : Crop) (v : ℚ),
      (c.soil_ph_min < c.soil_ph_max →
        v * (9.9 - 3.5) + 3.5 = (c.soil_ph_min + c.soil_ph_max) / 2 →
        phSubScore v c = 1) ∧
      (c.temperature_min < c.temperature_max →
        v * (44 - 10) + 10 = (c.temperature_min + c.temperature_max) / 2 →
        tempSubScore v c = 1) ∧
      (c.rainfall_min < c.rainfall_max →
        v * (298 - 20) + 20 = (c.rainfall_min + c.rainfall_max) / 2 →
        rainSubScore v c = 1) := by
  intro c v
  refine ⟨fun hw hm => ?_, fun hw hm => ?_, fun hw hm => ?_⟩
  · simp only [phSubScore, phScoreRaw, hm]
    rw [if_pos ⟨by linarith, by linarith⟩, sub_self, abs_zero, mul_zero, zero_div, sub_zero]
    exact max_eq_right zero_le_one
  · simp only [tempSubScore, tempScoreRaw, hm]
    rw [if_pos ⟨by linarith, by linarith⟩, sub_self, abs_zero, mul_zero, zero_div, sub_zero]
    exact max_eq_right zero_le_one
  · simp only [rainSubScore, rainScoreRaw, hm]
    rw [if_pos ⟨by linarith, by linarith⟩, sub_self, abs_zero, mul_zero, zero_div, sub_zero]
    exact max_eq_right zero_le_one

/-- C9 witness: for the test crop the three midpoints — pH 6.75 (normalized
65/128), temperature 20 (normalized 5/17), rainfall 550 (normalized 265/139)
— all score exactly 1. -/
theorem C9_witness :
    phSubScore (65/128) testCrop = 1 ∧ tempSubScore (5/17) testCrop = 1 ∧
    rainSubScore (265/139) testCrop = 1 :=
  ⟨(C9_midpoint_scores_one testCrop (65/128)).1
      (by norm_num [testCrop]) (by norm_num [testCrop]),
   (C9_midpoint_scores_one testCrop (5/17)).2.1
      (by norm_num [testCrop]) (by norm_num [testCrop]),
   (C9_midpoint_scores_one testCrop (265/139)).2.2
      (by norm_num [testCrop]) (by norm_num [testCrop])⟩

/-- C2 counterexample: at the denormalized nitrogen value 80 (normalized
4/7), inside the spec's default optimal range [60, 100], the claimed
sub-score is 1, but the code's point-requirement sub-score is
1 − 0.8·(10/70) = 31/35 ≠ 1. -/
theorem C2_counterexample :
    nScoreOf (some (4/7)) 70 = 31/35 ∧ specClaimedNutrientSubScore 80 60 100 = 1 ∧
    (31/35 : ℚ) ≠ 1 := by
  refine ⟨?_, ?_, by norm_num⟩
  · norm_num [nScoreOf, nutrientPointScore, min_def]
  · norm_num [specClaimedNutrientSubScore]

/-- C2 (amended): each nutrient sub-score is point-based — for a positive
requirement it equals 1 exactly at the requirement value and always lies in
[0.2, 1] (it is never floored at 0) — and whenever at least one of N, P, K is
supplied the overall score adds the combined NPK weight times the plain
average of the three sub-scores, computed against the pipeline's fixed point
requirements N = 70, P = 75, K = 100; no minimum-based limiting-factor
recomputation exists. -/
theorem C2_nutrient_scoring :
    (∀ value req : ℚ, 0 < req →
      1/5 ≤ nutrientPointScore value req ∧ nutrientPointScore value req ≤ 1 ∧
        (nutrientPointScore value req = 1 ↔ value = req)) ∧
    ∀ (params : RecParams) (crop : Crop),
      (params.nitrogen.isSome || params.phosphorus.isSome || params.potassium.isSome) = true →
      calculateCropSuitabilityScore params ⟨crop, some ⟨70, 75, 100⟩⟩ =
        (nonNPKScore params ⟨crop, some ⟨70, 75, 100⟩⟩ +
          ((getWeights (jsToLower crop.name_en)).nitrogen +
            (getWeights (jsToLower crop.name_en)).phosphorus +
            (getWeights (jsToLower crop.name_en)).potassium) *
          ((nScoreOf params.nitrogen 70 + pScoreOf params.phosphorus 75 +
            kScoreOf params.potassium 100) / 3)) * 100 := by
  constructor
  · intro value req hreq
    have hd0 : 0 ≤ |value - req| / req := div_nonneg (abs_nonneg _) hreq.le
    have hm0 : 0 ≤ min (|value - req| / req) 1 := le_min hd0 zero_le_one
    have hm1 : min (|value - req| / req) 1 ≤ 1 := min_le_right _ _
    unfold nutrientPointScore
    refine ⟨by linarith, by linarith, ?_, ?_⟩
    · intro h
      have hz : min (|value - req| / req) 1 * 0.8 = 0 := by linarith
      have hmz : min (|value - req| / req) 1 = 0 := by
        rcases mul_eq_zero.1 hz with h' | h'
        · exact h'
        · norm_num at h'
      have hdz : |value - req| / req = 0 := by
        rcases min_eq_iff.1 hmz with ⟨h', _⟩ | ⟨h', _⟩
        · exact h'
        · norm_num at h'
      have habs : |value - req| = 0 :=
        (div_eq_zero_iff.1 hdz).resolve_right (ne_of_gt hreq)
      exact sub_eq_zero.1 (abs_eq_zero.1 habs)
    · intro h
      subst h
      norm_num
  · intro params crop h
    simp only [calculateCropSuitabilityScore, calculateNutrientScore, orDefault,
      Option.map_some, h, if_true]
    norm_num

/-- C2 witness: the point-score facts at value 80, requirement 70, and the
average-based aggregation identity for the test crop with only nitrogen
supplied. -/
theorem C2_witness :
    (1/5 ≤ nutrientPointScore 80 70 ∧ nutrientPointScore 80 70 ≤ 1 ∧
      (nutrientPointScore 80 70 = 1 ↔ (80 : ℚ) = 70)) ∧
    calculateCropSuitabilityScore { emptyParams with nitrogen := some (4/7) }
        ⟨testCrop, some ⟨70, 75, 100⟩⟩ =
      (nonNPKScore { emptyParams with nitrogen := some (4/7) }
          ⟨testCrop, some ⟨70, 75, 100⟩⟩ +
        ((getWeights (jsToLower testCrop.name_en)).nitrogen +
          (getWeights (jsToLower testCrop.name_en)).phosphorus +
          (getWeights (jsToLower testCrop.name_en)).potassium) *
        ((nScoreOf (some (4/7)) 70 + pScoreOf none 75 + kScoreOf none 100) / 3)) * 100 :=
  ⟨C2_nutrient_scoring.1 80 70 (by norm_num),
   C2_nutrient_scoring.2 { emptyParams with nitrogen := some (4/7) } testCrop rfl⟩

/-- C10 counterexample: for the zero-width crop and a pH exactly at the
single point the stored suitability score is NaN — the final
`Math.min(Math.max(·, 0), 100)` clamp does not bring it into [0, 100]. -/
theorem C10_counterexample :
    jsStoredScore phOnlyParams zeroWidthCrop (1/2) 1 1 = JSNum.nan ∧
    JSNum.inRange (jsStoredScore phOnlyParams zeroWidthCrop (1/2) 1 1) 0 100 = false := by
  have h : jsStoredScore phOnlyParams zeroWidthCrop (1/2) 1 1 = JSNum.nan := by
    norm_num [jsStoredScore, jsCalculateCropSuitabilityScore, phOnlyParams, emptyParams,
      getWeights, defaultWeights, jsToLower, jsPhSubScore, zeroWidthCrop, testCrop,
      JSNum.sub, JSNum.add, JSNum.neg, JSNum.div, JSNum.mul, JSNum.jsMax, JSNum.jsMin]
  exact ⟨h, by rw [h]; rfl⟩

/-- C10 (amended): whenever the base score is multiplied by the jitter,
seasonality and model-boost factors, the stored `suitabilityScore` is clamped
into [0, 100]; this holds for all factor values, and for crops whose scored
ranges have positive width (for a zero-width range the stored value is NaN
instead, see the C10 counterexample). -/
theorem C10_stored_score_in_range :
    ∀ (normalizedParams : RecParams) (seasonParam : Option String)
      (modelPredicted : Option String) (randomDraw : ℚ) (crop : Crop),
      crop.soil_ph_min < crop.soil_ph_max →
      crop.temperature_min < crop.temperature_max →
      crop.rainfall_min < crop.rainfall_max →
      0 ≤ (scoreCrop normalizedParams seasonParam modelPredicted randomDraw
            crop).suitabilityScore ∧
        (scoreCrop normalizedParams seasonParam modelPredicted randomDraw
            crop).suitabilityScore ≤ 100 := by
  intro p s m r c h1 h2 h3
  exact ⟨le_min (le_max_right _ _) (by norm_num), min_le_right _ _⟩

/-- C10 witness: the clamp bounds at the test crop (positive-width ranges),
neutral season, no model prediction and jitter draw 1/2. -/
theorem C10_witness :
    0 ≤ (scoreCrop emptyParams none none (1/2) testCrop).suitabilityScore ∧
    (scoreCrop emptyParams none none (1/2) testCrop).suitabilityScore ≤ 100 :=
  C10_stored_score_in_range emptyParams none none (1/2) testCrop
    (by norm_num [testCrop]) (by norm_num [testCrop]) (by norm_num [testCrop])

/-- C1 counterexample: after area scaling the edge function stores the ROI
rounded to one decimal: for investment 30000 and return 40000 on one acre the
stored ROI is 333/10 although profit/investment·100 = 100/3, so the claimed
exact identity fails. -/
theorem C1_counterexample :
    finalRecommendations [aiRec0] 1 AreaUnit.acres =
      [{ totalInvestment := 30000, expectedReturn := 40000, profitAmount := 10000,
         actualROI := 333/10 }] ∧
    (333/10 : ℚ) ≠ 10000 / 30000 * 100 := by
  constructor
  · norm_num [finalRecommendations, validatedRecommendations, aiRec0, jsRound, roundTenth,
      show areaInAcres 1 AreaUnit.acres = 1 from rfl]
  · norm_num

/-- C1 (amended): the fallback ranker's records satisfy both identities
exactly (for every positive farm area); in the edge function's final pass the
profit identity holds exactly while the stored ROI is the identity value
rounded to one decimal by `toFixed(1)`. -/
theorem C1_financial_identities :
    (∀ (pincode : String) (farmArea : ℚ) (previousCrops : List String) (u : AreaUnit)
        (currentSeason : Season) (r : Recommendation), 0 < farmArea →
      r ∈ calculateRecommendations pincode farmArea previousCrops u currentSeason →
      r.profitAmount = r.expectedReturn - r.totalInvestment ∧
        r.actualROI = r.profitAmount / r.totalInvestment * 100) ∧
    ∀ (recs : List AIRec) (farmArea : ℚ) (u : AreaUnit) (r : AIRec),
      r ∈ finalRecommendations recs farmArea u →
      r.profitAmount = r.expectedReturn - r.totalInvestment ∧
        r.actualROI = roundTenth (r.profitAmount / r.totalInvestment * 100) := by
  constructor
  · intro pincode farmArea prev u season r hpos hr
    obtain ⟨c, hc, rfl⟩ := mem_calculateRecommendations hr
    exact ⟨rfl, rfl⟩
  · intro recs farmArea u r hr
    unfold finalRecommendations at hr
    obtain ⟨c, hc, rfl⟩ := List.mem_map.1 hr
    exact ⟨rfl, rfl⟩

/-- C1 witness: both identity packages at concrete inputs — the sugarcane
record for a one-acre farm in pincode 141001 during kharif, and the scaled
edge-function record for `aiRec0`. -/
theorem C1_witness :
    ((financials (areaInAcres 1 AreaUnit.acres) sugarcane).profitAmount =
        (financials (areaInAcres 1 AreaUnit.acres) sugarcane).expectedReturn -
          (financials (areaInAcres 1 AreaUnit.acres) sugarcane).totalInvestment ∧
      (financials (areaInAcres 1 AreaUnit.acres) sugarcane).actualROI =
        (financials (areaInAcres 1 AreaUnit.acres) sugarcane).profitAmount /
          (financials (areaInAcres 1 AreaUnit.acres) sugarcane).totalInvestment * 100) ∧
    ∀ r ∈ finalRecommendations [aiRec0] 1 AreaUnit.acres,
      r.profitAmount = r.expectedReturn - r.totalInvestment ∧
        r.actualROI = roundTenth (r.profitAmount / r.totalInvestment * 100) := by
  constructor
  · refine C1_financial_identities.1 "141001" 1 [] AreaUnit.acres Season.kharif _
      (by norm_num) (mem_calculateRecommendations_of_le5 ?_ ?_)
    · rw [show rotationFiltered "141001" [] Season.kharif = mockCrops from rfl]
      exact List.Mem.tail _ (List.Mem.tail _ (List.Mem.head _))
    · rw [show rotationFiltered "141001" [] Season.kharif = mockCrops from rfl]
      rfl
  · intro r hr
    exact C1_financial_identities.2 [aiRec0] 1 AreaUnit.acres r hr

/-- C5 counterexample: with previous crops `["Wheat"]` (capitalized) the
wheat crop still appears in the output, although its name appears
case-insensitively in the previous-crops list — the filter lower-cases only
the crop name, not the list entries. -/
theorem C5_counterexample :
    "Wheat" ∈ (calculateRecommendations "141001" 1 ["Wheat"] AreaUnit.acres
        Season.kharif).map (fun r => r.crop.name_en) ∧
    jsToLower "Wheat" ∈ ["Wheat"].map jsToLower := by
  constructor
  · refine List.mem_map.2 ⟨financials (areaInAcres 1 AreaUnit.acres) wheat,
      mem_calculateRecommendations_of_le5 ?_ ?_, rfl⟩
    · rw [show rotationFiltered "141001" ["Wheat"] Season.kharif = mockCrops from rfl]
      exact List.Mem.head _
    · rw [show rotationFiltered "141001" ["Wheat"] Season.kharif = mockCrops from rfl]
      rfl
  · exact List.Mem.head _

/-- C5 (amended): a crop is excluded from the fallback ranker's output
exactly when its lower-cased English name is a verbatim member of the
previous-crops list; so every output record's lower-cased name is absent from
that list (case-insensitive matching holds only on the crop-name side). -/
theorem C5_rotation_excludes_lowercase :
    ∀ (pincode : String) (farmArea : ℚ) (previousCrops : List String) (u : AreaUnit)
      (currentSeason : Season) (r : Recommendation),
      r ∈ calculateRecommendations pincode farmArea previousCrops u currentSeason →
      previousCrops.contains (jsToLower r.crop.name_en) = false := by
  intro pincode farmArea prev u season r hr
  obtain ⟨c, hc, rfl⟩ := mem_calculateRecommendations hr
  have hcond := (List.mem_filter.1 hc).2
  simpa using hcond

/-- C5 witness: with previous crops `["wheat"]` the sugarcane record is in
the output and its lower-cased name is not in the list. -/
theorem C5_witness :
    (financials (areaInAcres 1 AreaUnit.acres) sugarcane ∈
      calculateRecommendations "141001" 1 ["wheat"] AreaUnit.acres Season.kharif) ∧
    ["wheat"].contains (jsToLower (financials (areaInAcres 1 AreaUnit.acres)
      sugarcane).crop.name_en) = false := by
  have hm : financials (areaInAcres 1 AreaUnit.acres) sugarcane ∈
      calculateRecommendations "141001" 1 ["wheat"] AreaUnit.acres Season.kharif := by
    refine mem_calculateRecommendations_of_le5 ?_ ?_
    · rw [show rotationFiltered "141001" ["wheat"] Season.kharif =
        [rice, sugarcane, cotton, soybean] from rfl]
      exact List.Mem.tail _ (List.Mem.head _)
    · rw [show rotationFiltered "141001" ["wheat"] Season.kharif =
        [rice, sugarcane, cotton, soybean] from rfl]
      decide
  exact ⟨hm, C5_rotation_excludes_lowercase "141001" 1 ["wheat"] AreaUnit.acres
    Season.kharif _ hm⟩

/-- C6 counterexample: with six input crops the service ranker returns six
records — it never truncates to the claimed min(5, number of crops). -/
theorem C6_counterexample :
    (getCropRecommendations emptyParams (mockCrops ++ [testCrop]) [] (fun i => 1/2)
      none).length = 6 ∧ (6 : ℕ) ≠ min 5 6 := by
  constructor
  · rw [length_getCropRecommendations _ _ _ _ _ (by simp [mockCrops])]
    rfl
  · decide

/-- C6 (amended): the service ranker returns every input crop (no
truncation), sorted by descending stored suitability score with ties kept in
input order; the fallback ranker returns min(5, number of crops surviving the
rotation filter) records, sorted by descending actual ROI with ties kept in
input order. -/
theorem C6_ranker_shapes :
    (∀ (params : RecParams) (availableCrops defaultCrops : List Crop) (rand : ℕ → ℚ)
        (modelPredicted : Option String), availableCrops ≠ [] →
      (getCropRecommendations params availableCrops defaultCrops rand
          modelPredicted).length = availableCrops.length) ∧
    (∀ (params : RecParams) (availableCrops defaultCrops : List Crop) (rand : ℕ → ℚ)
        (modelPredicted : Option String),
      List.Sorted scoreGE
        (getCropRecommendationsScored params availableCrops defaultCrops rand
          modelPredicted)) ∧
    (∀ (params : RecParams) (availableCrops defaultCrops : List Crop) (rand : ℕ → ℚ)
        (modelPredicted : Option String) (s : ℚ),
      (getCropRecommendationsScored params availableCrops defaultCrops rand
          modelPredicted).filter (fun c => decide (c.suitabilityScore = s)) =
        (scoredCropsOf params availableCrops defaultCrops rand modelPredicted).filter
          (fun c => decide (c.suitabilityScore = s))) ∧
    ∀ (pincode : String) (farmArea : ℚ) (previousCrops : List String) (u : AreaUnit)
        (currentSeason : Season),
      (calculateRecommendations pincode farmArea previousCrops u currentSeason).length =
        min 5 (rotationFiltered pincode previousCrops currentSeason).length ∧
      List.Sorted roiGE (sortedRecommendations pincode farmArea previousCrops u
        currentSeason) ∧
      ∀ s : ℚ, (sortedRecommendations pincode farmArea previousCrops u
          currentSeason).filter (fun r => decide (r.actualROI = s)) =
        (mappedRecommendations pincode farmArea previousCrops u currentSeason).filter
          (fun r => decide (r.actualROI = s)) := by
  refine ⟨length_getCropRecommendations, ?_, ?_, ?_⟩
  · intro params availableCrops defaultCrops rand modelPredicted
    exact List.sorted_insertionSort scoreGE _
  · intro params availableCrops defaultCrops rand modelPredicted s
    exact filter_insertionSort_key (fun c : ScoredCrop => c.suitabilityScore) s _
  · intro pincode farmArea prev u season
    refine ⟨?_, List.sorted_insertionSort roiGE _, fun s => ?_⟩
    · rw [calculateRecommendations, List.length_take, sortedRecommendations,
        List.length_insertionSort, mappedRecommendations, List.length_map]
    · exact filter_insertionSort_key (fun r : Recommendation => r.actualROI) s _

/-- C6 witness: the no-truncation length fact at the five mock crops. -/
theorem C6_witness :
    (getCropRecommendations emptyParams mockCrops [] (fun i => 1/2) none).length =
      mockCrops.length :=
  C6_ranker_shapes.1 emptyParams mockCrops [] (fun i => 1/2) none (by simp [mockCrops])

end Fasal
